import Mathlib

/-!
Verification development for the vkbot repository (src/bot).

The development shallowly embeds the Python modules that the claims are
about:

* `src/bot/config.py`      — the field configuration and user-facing strings;
* `src/bot/form_handler.py` — `FormHandler` (validation, form sessions,
  ticket creation, ticket cache);
* `src/bot/db_handler.py`  — `DatabaseHandler` (the sqlite ticket store,
  modelled as a list of rows with `ticket_id` as primary key);
* `src/bot/handlers.py`    — `BotHandlers` (message routing, ticket view,
  two-phase delete).

Python dictionaries are modelled as association lists with unique keys
(`lookupA` / `setA` / `eraseA`); Python strings as Lean `String`
(both count Unicode code points for `len`); Python `str.strip` as
`pyStrip` over Python's ASCII whitespace set; Python `str.lower` as
`pyLower`, which lowercases the ASCII and Cyrillic ranges actually used
by the field names.  All definitions are executable.
-/

/-- Python ASCII whitespace, the characters removed by `str.strip()` for
the inputs considered here. -/
def isPyWS (c : Char) : Bool :=
  c = ' ' || c = '\t' || c = '\n' || c = '\r' || c = '\x0b' || c = '\x0c'

/-- Model of Python `str.strip()`: drop leading and trailing whitespace. -/
def pyStrip (s : String) : String :=
  ⟨((s.data.dropWhile isPyWS).reverse.dropWhile isPyWS).reverse⟩

/-- Model of Python `str.lower()` on one character, covering the ASCII
range and the Cyrillic letters А..Я / Ё used by the configured field
names. -/
def pyLowerChar (c : Char) : Char :=
  if 'A' ≤ c ∧ c ≤ 'Z' then Char.ofNat (c.toNat + 32)
  else if 'А' ≤ c ∧ c ≤ 'Я' then Char.ofNat (c.toNat + 32)
  else if c = 'Ё' then 'ё'
  else c

/-- Model of Python `str.lower()`. -/
def pyLower (s : String) : String := ⟨s.data.map pyLowerChar⟩

/-- Substring occurrence test on character lists, used to model Python's
`"sub" in s`. -/
def containsList (hay pat : List Char) : Bool :=
  match hay with
  | [] => pat.isEmpty
  | _ :: rest => pat.isPrefixOf hay || containsList rest pat

/-- Model of Python `sub in s` for strings. -/
def containsSub (hay pat : String) : Bool :=
  containsList hay.data pat.data

/-- Model of Python `str.isdigit()` (restricted to ASCII digits, the only
digits the handlers ever receive): nonempty and all digits. -/
def pyIsDigit (s : String) : Bool :=
  !s.data.isEmpty && s.data.all Char.isDigit

/-- Model of Python `int(s)` on an all-digit string. -/
def natOfDigits (s : String) : Nat :=
  s.data.foldl (fun n c => 10 * n + (c.toNat - 48)) 0

/-- Model of Python `s.split('_')`: split on every underscore, keeping
empty parts. -/
def splitUnd : List Char → List (List Char)
  | [] => [[]]
  | c :: rest =>
    match splitUnd rest with
    | [] => if c = '_' then [[], []] else [[c]]
    | p :: ps => if c = '_' then [] :: p :: ps else (c :: p) :: ps

/-- Model of `re.sub(r"\\D", "", value)` from `FormHandler.validate_field`.
The pattern is a raw string, so the regex is `\\D`: it matches the literal
two-character sequence backslash-`D`, NOT non-digit characters.  `re.sub`
removes the non-overlapping occurrences left to right. -/
def stripBackslashD : List Char → List Char
  | '\\' :: 'D' :: rest => stripBackslashD rest
  | c :: rest => c :: stripBackslashD rest
  | [] => []

/-- Python `\w` (Unicode word character) for the alphabets in play:
ASCII alphanumerics, underscore, and Cyrillic letters. -/
def isWordChar (c : Char) : Bool :=
  c.isAlphanum || c = '_' || ('А' ≤ c ∧ c ≤ 'я') || c = 'Ё' || c = 'ё'

/-- Character class `[\w\\.-]` of the email pattern in
`FormHandler.validate_field`: a word character, a literal backslash,
a dot, or a hyphen. -/
def isEmailClassChar (c : Char) : Bool :=
  isWordChar c || c = '\\' || c = '.' || c = '-'

/-- Tail `\\.\\w+$` of the email pattern
`r"^[\w\\.-]+@[\w\\.-]+\\.\\w+$"` (a raw Python string, so `\\` is an
escaped literal backslash in the regex): a literal backslash, any one
character, a literal backslash, then one or more literal `w`
characters, then end of string. -/
def emailTailMatch : List Char → Bool
  | '\\' :: _ :: '\\' :: ws => !ws.isEmpty && ws.all (· = 'w')
  | _ => false

/-- Part after the `@`: one or more class characters followed by the
tail, with full backtracking over the split point. -/
def emailAfterAt : List Char → Bool
  | [] => false
  | c :: rest => isEmailClassChar c && (emailTailMatch rest || emailAfterAt rest)

/-- Expect the `@` and then the rest of the pattern. -/
def emailAtThen : List Char → Bool
  | '@' :: rest => emailAfterAt rest
  | _ => false

/-- Start of the pattern: one or more class characters, then `@` and the
rest, with backtracking. -/
def emailFromStart : List Char → Bool
  | [] => false
  | c :: rest => isEmailClassChar c && (emailAtThen rest || emailFromStart rest)

/-- Model of `re.match(r"^[\w\\.-]+@[\w\\.-]+\\.\\w+$", value)` seen as a
boolean: the anchored pattern must match the whole string. -/
def emailRegexMatch (s : String) : Bool :=
  emailFromStart s.data

/-- Association-list lookup, modelling `d.get(k)` / `k in d` on a Python
dict. -/
def lookupA {ν : Type} (m : List (Nat × ν)) (k : Nat) : Option ν :=
  match m with
  | [] => none
  | (k', v) :: rest => if k' = k then some v else lookupA rest k

/-- Association-list update, modelling `d[k] = v` on a Python dict. -/
def setA {ν : Type} (m : List (Nat × ν)) (k : Nat) (v : ν) : List (Nat × ν) :=
  match m with
  | [] => [(k, v)]
  | (k', v') :: rest => if k' = k then (k, v) :: rest else (k', v') :: setA rest k v

/-- Association-list removal, modelling `del d[k]` on a Python dict
(keys are unique in every reachable state, so removing every binding
coincides with dict deletion). -/
def eraseA {ν : Type} (m : List (Nat × ν)) (k : Nat) : List (Nat × ν) :=
  m.filter (fun p => p.1 ≠ k)

/-! ## Configuration (`src/bot/config.py`) -/

def ERROR_FIELD_EMPTY : String :=
  "Поле не может быть пустым. Пожалуйста, укажите значение."

def ERROR_NAME_TOO_SHORT : String := "Имя должно содержать минимум 2 символа."

def ERROR_INVALID_EMAIL : String :=
  "Неверный формат электронной почты. Пример: example@mail.ru"

def ERROR_INVALID_PHONE : String :=
  "Неверный формат номера телефона. Пожалуйста, укажите номер в формате +7XXXXXXXXXX или 8XXXXXXXXXX (минимум 10 цифр)."

def ERROR_COMPANY_NAME_TOO_SHORT : String :=
  "Название компании должно содержать минимум 3 символа."

def ERROR_DESCRIPTION_TOO_SHORT : String :=
  "Описание должно содержать минимум 10 символов."

def FORM_ALL_FIELDS_COMPLETE_MESSAGE : String :=
  "На все вопросы получены ответы. Нажмите \"Отправить\", чтобы создать заявку."

/-- Validation rule variants of `FORM_FIELDS_CONFIG` in `config.py`. -/
inductive Rule where
  | min_length (value : Nat) (error : String)
  | regexRule (pat : String) (error : String)
  | phone (error : String)
deriving DecidableEq, Repr

/-- One entry of `FORM_FIELDS_CONFIG`: a field name and an optional
validation rule (`"validation": None` for optional fields). -/
structure FieldSpec where
  name : String
  validation : Option Rule
deriving DecidableEq, Repr

/-- Embedding of `FORM_FIELDS_CONFIG` from `config.py` (lines 122–167). -/
def FORM_FIELDS_CONFIG : List FieldSpec :=
  [ ⟨"Ваше имя", some (.min_length 2 ERROR_NAME_TOO_SHORT)⟩,
    ⟨"Электронная почта", some (.regexRule "^[\\w\\.-]+@[\\w\\.-]+\\.\\w+$" ERROR_INVALID_EMAIL)⟩,
    ⟨"Номер телефона", some (.phone ERROR_INVALID_PHONE)⟩,
    ⟨"Название компании", some (.min_length 3 ERROR_COMPANY_NAME_TOO_SHORT)⟩,
    ⟨"Сайт/CRM-система/Мобильное приложение/Другое", none⟩,
    ⟨"Краткое описание", some (.min_length 10 ERROR_DESCRIPTION_TOO_SHORT)⟩,
    ⟨"Дополнительная информация", none⟩ ]

/-- The ordered field-name list handed to `FormHandler`. -/
def FORM_FIELDS : List String := FORM_FIELDS_CONFIG.map FieldSpec.name

/-! ## Validation engine (`FormHandler.validate_field`) -/

namespace FormHandler

/-- Embedding of `FormHandler.validate_field` (`form_handler.py`
lines 78–124).  The answer is stripped; an empty stripped value always
fails with `ERROR_FIELD_EMPTY`; otherwise the rule is chosen by keyword
search in the lowercased field name, exactly as the `if/elif` chain in
the source.  The email regex and the phone `re.sub` pattern are embedded
with their actual (doubly escaped) semantics. -/
def validate_field (field_name value : String) : Bool × String :=
  let v := pyStrip value
  if v = "" then (false, ERROR_FIELD_EMPTY)
  else
    let fl := pyLower field_name
    let errorMsg :=
      if containsSub fl "имя" && decide (v.length < 2) then ERROR_NAME_TOO_SHORT
      else if (containsSub fl "почта" || containsSub fl "email") && !emailRegexMatch v then
        ERROR_INVALID_EMAIL
      else if containsSub fl "телефон" then
        let cleaned := stripBackslashD v.data
        if !(decide (10 ≤ cleaned.length) && decide (cleaned.length ≤ 15)) then
          ERROR_INVALID_PHONE
        else ""
      else if (containsSub fl "компани" || containsSub fl "организац") && decide (v.length < 3) then
        ERROR_COMPANY_NAME_TOO_SHORT
      else if containsSub fl "описание" && decide (v.length < 10) then
        ERROR_DESCRIPTION_TOO_SHORT
      else ""
    if errorMsg ≠ "" then (false, errorMsg) else (true, "")

end FormHandler

/-! ## Ticket store (`src/bot/db_handler.py`)

The sqlite table `tickets (ticket_id TEXT PRIMARY KEY, user_id INTEGER,
created_at TEXT, form_data TEXT)` is modelled as a list of rows; the
primary key means every reachable store has pairwise distinct
`ticket_id`s. -/

/-- One row of the `tickets` table. -/
structure DBTicket where
  ticket_id : String
  user_id : Nat
  created_at : String
  form_data : List (String × String)
deriving DecidableEq, Repr

namespace DatabaseHandler

/-- Embedding of `DatabaseHandler.get_ticket` (`db_handler.py` 90–125):
`SELECT * FROM tickets WHERE ticket_id = ?` with `fetchone`. -/
def get_ticket (db : List DBTicket) (tid : String) : Option DBTicket :=
  db.find? (fun t => t.ticket_id == tid)

/-- Embedding of `DatabaseHandler.create_ticket` (`db_handler.py` 57–88):
the `INSERT` succeeds unless it violates the `ticket_id` primary key, in
which case the `sqlite3.Error` is caught and `False` returned. -/
def create_ticket (db : List DBTicket) (t : DBTicket) : Bool × List DBTicket :=
  if db.any (fun u => u.ticket_id == t.ticket_id) then (false, db)
  else (true, db ++ [t])

/-- Embedding of `DatabaseHandler.delete_ticket` (`db_handler.py`
203–247): first `SELECT COUNT(*) ... WHERE ticket_id = ? AND user_id = ?`;
if the count is zero, return `False` without touching the store,
otherwise `DELETE` the matching rows and return `True`. -/
def delete_ticket (db : List DBTicket) (tid : String) (uid : Nat) :
    Bool × List DBTicket :=
  if db.any (fun t => t.ticket_id == tid && t.user_id == uid) then
    (true, db.filter (fun t => !(t.ticket_id == tid && t.user_id == uid)))
  else (false, db)

end DatabaseHandler

/-! ## Form sessions (`src/bot/form_handler.py`) -/

/-- A per-user form in `FormHandler.user_forms`: the dict
`{"current_field": i, "data": {...}, "started_at": ...}` created by
`start_form`. -/
structure FormSession where
  current_field : Nat
  data : List (String × String)
  started_at : String
deriving DecidableEq, Repr

/-- Embedding of `FormHandler.user_forms` restricted to the integer user keys (the
string keys `'last_viewed_ticket'` and `'delete_pending'` that
`handlers.py` stashes in the same dict are modelled separately in
`BotState`; the key types are disjoint in Python, so the components are
independent). -/
abbrev SessionsMap : Type := List (Nat × FormSession)

/-- Outcome of executing the body of one of the `async` methods of
`FormHandler`: a normal return value, or an uncaught `TypeError`
propagating to the caller. -/
inductive PyResult (α : Type) where
  | ok (val : α)
  | typeError
deriving DecidableEq, Repr

namespace FormHandler

/-- Embedding of `FormHandler.get_current_question` (`form_handler.py`
51–76). -/
def get_current_question (fields : List String) (sessions : SessionsMap)
    (user_id : Nat) : String :=
  match lookupA sessions user_id with
  | none => "Пожалуйста, сначала начните заполнение формы."
  | some form =>
    if fields.length ≤ form.current_field then FORM_ALL_FIELDS_COMPLETE_MESSAGE
    else "Пожалуйста, укажите: " ++ fields.getD form.current_field ""

/-- Embedding of `FormHandler.start_form` (`form_handler.py` 32–49):
install a fresh session (index 0, all answers pre-populated empty) and
return the first question. -/
def start_form (fields : List String) (sessions : SessionsMap)
    (user_id : Nat) (now : String) : SessionsMap × String :=
  let sessions' := setA sessions user_id
    ⟨0, fields.map (fun f => (f, "")), now⟩
  (sessions', get_current_question fields sessions' user_id)

/-- Python `form["data"][field] = value`: update the binding of `field`
(every field name is pre-populated by `start_form`). -/
def setData (data : List (String × String)) (field value : String) :
    List (String × String) :=
  match data with
  | [] => [(field, value)]
  | (f, v) :: rest =>
    if f = field then (field, value) :: rest else (f, v) :: setData rest field value

/-- Embedding of `FormHandler.process_answer` (`form_handler.py`
126–167).  Returns the updated session map and the reply text exactly as
built by the source: on validation failure the map is returned untouched
and the reply is the error followed by the unchanged current question;
on success the stripped answer is stored, the index advanced, and the
next question (or the completion message) returned. -/
def process_answer (fields : List String) (sessions : SessionsMap)
    (user_id : Nat) (answer : String) : SessionsMap × String :=
  match lookupA sessions user_id with
  | none => (sessions, "Пожалуйста, сначала начните заполнение формы.")
  | some form =>
    if fields.length ≤ form.current_field then
      (sessions, FORM_ALL_FIELDS_COMPLETE_MESSAGE)
    else
      let current := fields.getD form.current_field ""
      let res := validate_field current answer
      if res.1 = false then
        (sessions, res.2 ++ "\n\n" ++ get_current_question fields sessions user_id)
      else
        let form' : FormSession :=
          { form with
            data := setData form.data current (pyStrip answer),
            current_field := form.current_field + 1 }
        let sessions' := setA sessions user_id form'
        (sessions', get_current_question fields sessions' user_id)

/-- Embedding of `FormHandler.cancel_form` (`form_handler.py` 169–183). -/
def cancel_form (sessions : SessionsMap) (user_id : Nat) : SessionsMap :=
  eraseA sessions user_id

/-- Embedding of `FormHandler.is_form_complete` (`form_handler.py`
185–199). -/
def is_form_complete (fields : List String) (sessions : SessionsMap)
    (user_id : Nat) : Bool :=
  match lookupA sessions user_id with
  | none => false
  | some form => fields.length ≤ form.current_field

/-- Embedding of `FormHandler.create_ticket` (`form_handler.py`
201–234): the body of the coroutine as it actually executes when
awaited.  The incomplete-session early return (lines 212–216) is
reachable and yields `None`.  On a complete session, line 221 reads
`success = await self.db_handler.create_ticket(...)` — but
`DatabaseHandler.create_ticket` is a SYNCHRONOUS method: the call is
evaluated first (so the insert IS applied to the store), and `await` on
the returned `bool` then raises `TypeError`, so lines 223–234 —
deleting the session and returning the ticket id on success, or
returning `None` on a failed insert — are unreachable dead code.  The
session survives in every complete-session run and the caller receives
an exception, never a value.  `timestamp` stands for
`int(datetime.now().timestamp())` and `now` for the `created_at` the
store writes. -/
def create_ticket (fields : List String) (sessions : SessionsMap)
    (db : List DBTicket) (user_id : Nat) (timestamp : Nat) (now : String) :
    PyResult (Option String) × SessionsMap × List DBTicket :=
  if is_form_complete fields sessions user_id = false then (.ok none, sessions, db)
  else
    match lookupA sessions user_id with
    | none => (.ok none, sessions, db)
    | some form =>
      let tid := toString user_id ++ "_" ++ toString timestamp
      let res := DatabaseHandler.create_ticket db ⟨tid, user_id, now, form.data⟩
      (.typeError, sessions, res.2)

/-- Embedding of `FormHandler.user_tickets`: the per-user cached list of ticket ids
written by `BotHandlers.tickets_handler`. -/
abbrev TicketsCache : Type := List (Nat × List String)

/-- Embedding of `FormHandler.delete_ticket` (`form_handler.py`
236–272): the body of the coroutine as it actually executes when
awaited.  Line 252 reads
`success = await self.db_handler.delete_ticket(...)` — but
`DatabaseHandler.delete_ticket` is a SYNCHRONOUS method: the call is
evaluated first (so the owner-checked store delete IS applied), and
`await` on the returned `bool` then raises `TypeError`, so the cache
maintenance of lines 255–270 (`list.remove` of the id from
`user_tickets`, dropping an emptied entry) and the `return success` are
unreachable dead code: the cache is left exactly as it was and the
caller receives an exception, never a `bool`.  (The only call site,
`handlers.py` line 348, additionally never awaits the coroutine, so in
the deployed flow even the store delete does not run — see
`BotHandlers.confirm_delete_step`.) -/
def delete_ticket (db : List DBTicket) (cache : TicketsCache)
    (user_id : Nat) (tid : String) :
    PyResult Bool × List DBTicket × TicketsCache :=
  let res := DatabaseHandler.delete_ticket db tid user_id
  (.typeError, res.2, cache)

end FormHandler

/-! ## Message routing and ticket handlers (`src/bot/handlers.py`) -/

/-- The joint per-user state manipulated by `BotHandlers`: the integer
keyed form sessions plus the two string-keyed scratch sub-dicts that the
source keeps inside the same `user_forms` dict
(`user_forms['last_viewed_ticket']` and `user_forms['delete_pending']`),
the `user_tickets` cache, and the ticket store. -/
structure BotState where
  sessions : SessionsMap
  lastViewed : List (Nat × String)
  deletePending : List (Nat × String)
  userTickets : FormHandler.TicketsCache
  db : List DBTicket
deriving DecidableEq, Repr

namespace BotHandlers

/-- The branch that `BotHandlers.message_handler` (`handlers.py`
399–456) dispatches a plain text message to. -/
inductive MsgRoute where
  | deletePrompt
  | confirmDelete
  | processAnswer
  | ticketInfo
  | unknown
deriving DecidableEq, Repr

/-- Python `all(part.isdigit() for part in message_text.split('_'))`. -/
def allDigitParts (t : String) : Bool :=
  (splitUnd t.data).all (fun p => !p.isEmpty && p.all Char.isDigit)

/-- Embedding of the dispatch order of `BotHandlers.message_handler`
(`handlers.py` 399–456): the two delete-command texts are checked FIRST
(lines 408–414), the open-form check only comes after them (lines
417–438), then the numeric/ticket-id check guarded by the presence of a
`user_tickets` cache entry (lines 442–447), then the unknown-command
fallback. -/
def message_route (st : BotState) (user_id : Nat) (text : String) : MsgRoute :=
  let t := pyStrip text
  if t = "Удалить заявку" then .deletePrompt
  else if t = "Подтвердить удаление" then .confirmDelete
  else if (lookupA st.sessions user_id).isSome then .processAnswer
  else if t ≠ "" && (pyIsDigit t || (t.data.contains '_' && allDigitParts t))
      && (lookupA st.userTickets user_id).isSome then .ticketInfo
  else .unknown

/-- How `BotHandlers.ticket_info_handler` (`handlers.py` 183–201)
resolves the message text to a ticket id. -/
inductive TicketSelect where
  | resolved (tid : String)
  | invalidNumber
  | fullId (tid : String)
deriving DecidableEq, Repr

/-- Embedding of the selection logic of `ticket_info_handler`: a purely
numeric text (no underscore) is a 1-based index into the user's cached
ticket list; the index is range-checked against the CACHED LIST length;
an absent cache entry or an out-of-range index yields the explicit
"Некорректный номер заявки" reply and an early return (no store access);
any other text is treated as a full ticket id. -/
def ticket_selection (cache : Option (List String)) (text : String) :
    TicketSelect :=
  let t := pyStrip text
  if pyIsDigit t && !t.data.contains '_' then
    let index := natOfDigits t
    match cache with
    | some lst =>
      if 0 < index && index ≤ lst.length then .resolved (lst.getD (index - 1) "")
      else .invalidNumber
    | none => .invalidNumber
  else .fullId t

/-- The reply users see when a ticket is missing OR owned by someone
else (`handlers.py` lines 210 and 221 — character-for-character the
same string in both branches). -/
def TICKET_NOT_FOUND_REPLY : String :=
  "Заявка не найдена или у вас нет доступа к ней."

/-- The detail text built for an accessible ticket (`handlers.py`
227–235). -/
def ticket_info_text (t : DBTicket) (tid : String) : String :=
  "Информация о заявке " ++ tid ++ ":\n\n" ++
    (t.form_data.foldl (fun acc fv => acc ++ fv.1 ++ ": " ++ fv.2 ++ "\n") "") ++
    "\nДата создания: " ++ (t.created_at.replace "T" " ") ++ "\n"

/-- Embedding of the view part of `ticket_info_handler` (`handlers.py`
203–247) once a concrete ticket id is in hand: fetch the ticket; a
missing ticket and an existing ticket owned by a different user produce
the IDENTICAL `TICKET_NOT_FOUND_REPLY`; only the owner sees the detail
text. -/
def ticket_view_reply (db : List DBTicket) (user_id : Nat) (tid : String) :
    String :=
  match DatabaseHandler.get_ticket db tid with
  | none => TICKET_NOT_FOUND_REPLY
  | some t =>
    if t.user_id ≠ user_id then TICKET_NOT_FOUND_REPLY
    else ticket_info_text t tid

/-- Reply of `delete_ticket_handler` / `confirm_delete_handler` when the
ticket is missing or not owned (`handlers.py` 275, 289, 338). -/
def DELETE_NOT_FOUND_REPLY : String :=
  "Заявка не найдена или у вас нет прав на её удаление."

/-- Embedding of `BotHandlers.delete_ticket_handler` (`handlers.py`
249–312): no last-viewed ticket → ask the user to pick one; ticket
missing or not owned (re-checked against the store) → not-found reply
and the stale last-viewed entry cleared; otherwise prompt for
confirmation and record `delete_pending`. -/
def delete_prompt_step (st : BotState) (user_id : Nat) : BotState × String :=
  match lookupA st.lastViewed user_id with
  | none =>
    (st, "Пожалуйста, сначала выберите заявку, которую хотите удалить, в разделе 'Мои заявки'.")
  | some tid =>
    match DatabaseHandler.get_ticket st.db tid with
    | none => ({ st with lastViewed := eraseA st.lastViewed user_id }, DELETE_NOT_FOUND_REPLY)
    | some t =>
      if t.user_id ≠ user_id then
        ({ st with lastViewed := eraseA st.lastViewed user_id }, DELETE_NOT_FOUND_REPLY)
      else
        ({ st with deletePending := setA st.deletePending user_id tid },
         "Вы уверены, что хотите удалить заявку " ++ tid ++ "? Это действие нельзя отменить.")

/-- Embedding of `BotHandlers.confirm_delete_handler` (`handlers.py`
314–366).  The returned `Bool` records whether the deletion notification
to the admins is fired.  NOTE a genuine defect of the source: line 348
calls the `async` coroutine `FormHandler.delete_ticket` WITHOUT `await`,
so the coroutine body never runs — the store and the `user_tickets`
cache are left untouched — and the coroutine object itself is truthy,
so `if success:` always takes the success branch and the notification is
always fired.  The embedding reproduces exactly that behaviour. -/
def confirm_delete_step (st : BotState) (user_id : Nat) :
    BotState × String × Bool :=
  match lookupA st.deletePending user_id with
  | none =>
    (st, "Не найдено заявок, ожидающих удаления. Возможно, время ожидания истекло.", false)
  | some tid =>
    match DatabaseHandler.get_ticket st.db tid with
    | none =>
      ({ st with deletePending := eraseA st.deletePending user_id },
       DELETE_NOT_FOUND_REPLY, false)
    | some t =>
      if t.user_id ≠ user_id then
        ({ st with deletePending := eraseA st.deletePending user_id },
         DELETE_NOT_FOUND_REPLY, false)
      else
        ({ st with deletePending := eraseA st.deletePending user_id },
         "Заявка " ++ tid ++ " успешно удалена.", true)

/-- Button count of `tickets_handler` (`handlers.py` 155:
`range(1, min(len(tickets) + 1, 6))`): at most 5 buttons, while the
cached index stores EVERY ticket id. -/
def tickets_list_buttons (n : Nat) : Nat := min n 5

end BotHandlers

/-! ## Helper lemmas about the dict model -/

theorem lookupA_setA_self {ν : Type} (m : List (Nat × ν)) (k : Nat) (v : ν) :
    lookupA (setA m k v) k = some v := by
  induction m with
  | nil => simp [setA, lookupA]
  | cons p rest ih =>
    obtain ⟨k', v'⟩ := p
    by_cases h : k' = k
    · simp [setA, h, lookupA]
    · simp [setA, h, lookupA, ih]

theorem lookupA_eraseA_self {ν : Type} (m : List (Nat × ν)) (k : Nat) :
    lookupA (eraseA m k) k = none := by
  induction m with
  | nil => rfl
  | cons p rest ih =>
    obtain ⟨k', v'⟩ := p
    by_cases h : k' = k
    · simpa [eraseA, List.filter_cons, h] using ih
    · simpa [eraseA, List.filter_cons, h, lookupA] using ih

/-! ## Claim C4 -/

/-- Claim C4, as stated, is false on the code: `validate_field` rejects
an empty trimmed value unconditionally, BEFORE any rule is consulted, so
even a field whose configured rule is `None` (here the seventh field,
"Дополнительная информация") rejects the empty value with the
field-empty error instead of accepting it. -/
theorem c4_counterexample :
    FORM_FIELDS_CONFIG.getD 6 ⟨"", none⟩ = ⟨"Дополнительная информация", none⟩ ∧
    FormHandler.validate_field "Дополнительная информация" "" =
      (false, ERROR_FIELD_EMPTY) ∧
    FormHandler.validate_field "Дополнительная информация" "   " =
      (false, ERROR_FIELD_EMPTY) := by
  refine ⟨rfl, by decide, by decide⟩

/-- Claim C4 amended: for every field and every value whose trimmed form
is the empty string, validation fails with the "field empty" error —
with no exception for optional (rule `None`) fields. -/
theorem c4_empty_always_fails (field_name value : String)
    (h : pyStrip value = "") :
    FormHandler.validate_field field_name value = (false, ERROR_FIELD_EMPTY) := by
  unfold FormHandler.validate_field
  simp [h]

/-- Witness for `c4_empty_always_fails` at a concrete optional field and
a whitespace-only value. -/
theorem c4_empty_always_fails_witness :
    FormHandler.validate_field "Сайт/CRM-система/Мобильное приложение/Другое" " " =
      (false, ERROR_FIELD_EMPTY) :=
  c4_empty_always_fails "Сайт/CRM-система/Мобильное приложение/Другое" " " (by decide)

/-! ## Claim C5 -/

/-- Claim C5 evaluated on the code: with the configured fields
"Ваше имя" (min length 2) and "Электронная почта" (regex), the scenario
runs correctly up to the email step — "A" fails with the name error and
the session is left at index 0, "Al" advances to index 1,
"not-an-email" fails — but the accepted answer of the claim,
"a@b.com", is ALSO rejected: the email pattern
`r"^[\w\\.-]+@[\w\\.-]+\\.\\w+$"` (raw string) demands two literal
backslash characters, so no ordinary address can ever match; even the
example `example@mail.ru` printed by the code's own error message is
rejected, and the session never reaches `form_complete`. -/
theorem c5_email_regex_bug :
    FormHandler.process_answer ["Ваше имя", "Электронная почта"]
        [(1, ⟨0, [("Ваше имя", ""), ("Электронная почта", "")], "t"⟩)] 1 "A" =
      ([(1, ⟨0, [("Ваше имя", ""), ("Электронная почта", "")], "t"⟩)],
       "Имя должно содержать минимум 2 символа.\n\nПожалуйста, укажите: Ваше имя") ∧
    FormHandler.process_answer ["Ваше имя", "Электронная почта"]
        [(1, ⟨0, [("Ваше имя", ""), ("Электронная почта", "")], "t"⟩)] 1 "Al" =
      ([(1, ⟨1, [("Ваше имя", "Al"), ("Электронная почта", "")], "t"⟩)],
       "Пожалуйста, укажите: Электронная почта") ∧
    FormHandler.process_answer ["Ваше имя", "Электронная почта"]
        [(1, ⟨1, [("Ваше имя", "Al"), ("Электронная почта", "")], "t"⟩)] 1 "not-an-email" =
      ([(1, ⟨1, [("Ваше имя", "Al"), ("Электронная почта", "")], "t"⟩)],
       "Неверный формат электронной почты. Пример: example@mail.ru\n\nПожалуйста, укажите: Электронная почта") ∧
    emailRegexMatch "a@b.com" = false ∧
    FormHandler.process_answer ["Ваше имя", "Электронная почта"]
        [(1, ⟨1, [("Ваше имя", "Al"), ("Электронная почта", "")], "t"⟩)] 1 "a@b.com" =
      ([(1, ⟨1, [("Ваше имя", "Al"), ("Электронная почта", "")], "t"⟩)],
       "Неверный формат электронной почты. Пример: example@mail.ru\n\nПожалуйста, укажите: Электронная почта") ∧
    FormHandler.validate_field "Электронная почта" "example@mail.ru" =
      (false, ERROR_INVALID_EMAIL) := by
  refine ⟨by decide, by decide, by decide, by decide, by decide, by decide⟩

/-! ## Claim C6 -/

/-- Claim C6, as stated, is false on the code in both directions:
a value of sixteen digits is rejected (`10 <= len <= 15` enforces an
upper bound of 15), and a value of ten letters is ACCEPTED (the
stripping pattern `r"\\D"` removes the literal sequence backslash-`D`,
not non-digit characters, so the ten letters survive and pass the
length window). -/
theorem c6_counterexample :
    FormHandler.validate_field "Номер телефона" "1234567890123456" =
      (false, ERROR_INVALID_PHONE) ∧
    FormHandler.validate_field "Номер телефона" "abcdefghij" = (true, "") := by
  refine ⟨by decide, by decide⟩

/-- Claim C6 amended: for every nonempty trimmed value, the Phone rule
removes the occurrences of the literal two-character sequence
backslash-`D` (no non-digit stripping happens) and fails exactly when
the remaining character count lies outside the window 10..15 — an upper
bound of 15 IS enforced. -/
theorem c6_phone_window (value : String) (h : pyStrip value ≠ "") :
    FormHandler.validate_field "Номер телефона" value =
      (let cleaned := stripBackslashD (pyStrip value).data
       if 10 ≤ cleaned.length ∧ cleaned.length ≤ 15 then (true, "")
       else (false, ERROR_INVALID_PHONE)) := by
  have h1 : containsSub (pyLower "Номер телефона") "имя" = false := by decide
  have h2 : containsSub (pyLower "Номер телефона") "почта" = false := by decide
  have h3 : containsSub (pyLower "Номер телефона") "email" = false := by decide
  have h4 : containsSub (pyLower "Номер телефона") "телефон" = true := by decide
  have h5 : ERROR_INVALID_PHONE ≠ "" := by decide
  unfold FormHandler.validate_field
  simp only [h, if_false, h1, h2, h3, h4, Bool.false_and, Bool.false_or,
    Bool.true_and, if_true, Bool.or_self]
  by_cases hw : 10 ≤ (stripBackslashD (pyStrip value).data).length ∧
      (stripBackslashD (pyStrip value).data).length ≤ 15
  · simp [hw, hw.1, hw.2]
  · simp only [hw, if_false]
    rw [Decidable.not_and_iff_or_not] at hw
    rcases hw with hw | hw
    · simp [hw, h5]
    · simp [hw, h5]

/-- Witness for `c6_phone_window`: a plain 10-digit number passes,
via the theorem. -/
theorem c6_phone_window_witness :
    FormHandler.validate_field "Номер телефона" "89123456789" = (true, "") := by
  have h := c6_phone_window "89123456789" (by decide)
  exact h.trans (by decide)

/-! ## Claim C7 -/

/-- Claim C7: at field index `i` (in range), an answer that fails the
current field's validation makes `process_answer` return the session map
COMPLETELY unchanged together with the validation-error reply (the error
message followed by the re-shown current question), and the next
`get_current_question` is the same question as before the invalid
answer. -/
theorem c7_invalid_answer_preserves_state (fields : List String)
    (sessions : SessionsMap) (user_id : Nat) (form : FormSession)
    (answer : String)
    (hs : lookupA sessions user_id = some form)
    (hlt : form.current_field < fields.length)
    (hbad : (FormHandler.validate_field (fields.getD form.current_field "") answer).1 = false) :
    FormHandler.process_answer fields sessions user_id answer =
      (sessions,
       (FormHandler.validate_field (fields.getD form.current_field "") answer).2 ++
         "\n\n" ++ FormHandler.get_current_question fields sessions user_id) ∧
    FormHandler.get_current_question fields
        (FormHandler.process_answer fields sessions user_id answer).1 user_id =
      FormHandler.get_current_question fields sessions user_id := by
  have hnot : ¬ fields.length ≤ form.current_field := by omega
  have hmain : FormHandler.process_answer fields sessions user_id answer =
      (sessions,
       (FormHandler.validate_field (fields.getD form.current_field "") answer).2 ++
         "\n\n" ++ FormHandler.get_current_question fields sessions user_id) := by
    unfold FormHandler.process_answer
    rw [hs]
    simp only [List.getD, List.get?_eq_getElem?] at hbad
    simp [hnot, hbad, List.getD]
  exact ⟨hmain, by rw [hmain]⟩

/-- Witness for `c7_invalid_answer_preserves_state` at a concrete
session: the one-char answer "A" to the name field leaves the session at
index 0 and re-asks the same question. -/
theorem c7_witness :
    FormHandler.process_answer ["Ваше имя"] [(1, ⟨0, [("Ваше имя", "")], "t"⟩)] 1 "A" =
      ([(1, ⟨0, [("Ваше имя", "")], "t"⟩)],
       "Имя должно содержать минимум 2 символа.\n\nПожалуйста, укажите: Ваше имя") := by
  have h := c7_invalid_answer_preserves_state ["Ваше имя"]
    [(1, ⟨0, [("Ваше имя", "")], "t"⟩)] 1 ⟨0, [("Ваше имя", "")], "t"⟩ "A"
    (by decide) (by decide) (by decide)
  exact h.1.trans (by decide)

/-! ## Claim C8 -/

/-- Claim C8: a purely numeric input `k` (no underscore) against a
cached ticket list of length `M` resolves to the `k`-th ticket id of the
cached list (1-based) when `1 ≤ k ≤ M`, and yields the explicit
invalid-number reply (an early return, before any store access) when
`k = 0` or `k > M`; the range check uses the CACHED LIST length, not the
button count capped at 5. -/
theorem c8_numeric_selection (lst : List String) (text : String)
    (hd : pyIsDigit (pyStrip text) = true)
    (hu : (pyStrip text).data.contains '_' = false) :
    (1 ≤ natOfDigits (pyStrip text) → natOfDigits (pyStrip text) ≤ lst.length →
      BotHandlers.ticket_selection (some lst) text =
        BotHandlers.TicketSelect.resolved (lst.getD (natOfDigits (pyStrip text) - 1) "")) ∧
    (natOfDigits (pyStrip text) = 0 ∨ lst.length < natOfDigits (pyStrip text) →
      BotHandlers.ticket_selection (some lst) text =
        BotHandlers.TicketSelect.invalidNumber) := by
  unfold BotHandlers.ticket_selection
  simp only [hd, hu, Bool.not_false, Bool.and_self, if_true]
  constructor
  · intro h1 h2
    have : (0 < natOfDigits (pyStrip text) && natOfDigits (pyStrip text) ≤ lst.length) = true := by
      simp only [Bool.and_eq_true, decide_eq_true_eq]
      omega
    simp [this]
  · intro h
    have : (0 < natOfDigits (pyStrip text) && natOfDigits (pyStrip text) ≤ lst.length) = false := by
      simp only [Bool.and_eq_false_iff, decide_eq_false_iff_not]
      omega
    simp [this]

/-- Witness for `c8_numeric_selection` on a cached list of length 7
(more tickets than the 5 rendered buttons): "6" resolves to the sixth
id, while "8" and "0" are rejected as out of range. -/
theorem c8_numeric_selection_witness :
    BotHandlers.ticket_selection (some ["a", "b", "c", "d", "e", "f", "g"]) "6" =
      BotHandlers.TicketSelect.resolved "f" ∧
    BotHandlers.ticket_selection (some ["a", "b", "c", "d", "e", "f", "g"]) "8" =
      BotHandlers.TicketSelect.invalidNumber ∧
    BotHandlers.ticket_selection (some ["a", "b", "c", "d", "e", "f", "g"]) "0" =
      BotHandlers.TicketSelect.invalidNumber := by
  refine ⟨?_, ?_, ?_⟩
  · have h := (c8_numeric_selection ["a", "b", "c", "d", "e", "f", "g"] "6"
      (by decide) (by decide)).1 (by decide) (by decide)
    exact h.trans (by decide)
  · exact (c8_numeric_selection ["a", "b", "c", "d", "e", "f", "g"] "8"
      (by decide) (by decide)).2 (Or.inr (by decide))
  · exact (c8_numeric_selection ["a", "b", "c", "d", "e", "f", "g"] "0"
      (by decide) (by decide)).2 (Or.inl (by decide))

/-! ## Claim C2 -/

/-- Claim C2: with a well-formed store (`ticket_id` is the primary key),
whenever a ticket id has no row or its stored owner differs from the
requesting user, the view reply is the one fixed not-found string — the
same in both cases, so the reply cannot distinguish "exists but not
yours" from "does not exist" — and the store's owner-checked delete
returns `False` leaving the store unchanged. -/
theorem c2_non_owner_indistinguishable (db : List DBTicket) (uid : Nat)
    (tid : String)
    (hkeys : (db.map DBTicket.ticket_id).Nodup)
    (hbad : DatabaseHandler.get_ticket db tid = none ∨
      ∃ t, DatabaseHandler.get_ticket db tid = some t ∧ t.user_id ≠ uid) :
    BotHandlers.ticket_view_reply db uid tid = BotHandlers.TICKET_NOT_FOUND_REPLY ∧
    DatabaseHandler.delete_ticket db tid uid = (false, db) := by
  have hany : db.any (fun t => t.ticket_id == tid && t.user_id == uid) = false := by
    by_contra hc
    rw [Bool.not_eq_false, List.any_eq_true] at hc
    obtain ⟨x, hx, hpx⟩ := hc
    rw [Bool.and_eq_true, beq_iff_eq, beq_iff_eq] at hpx
    rcases hbad with hnone | ⟨t, hsome, hne⟩
    · rw [DatabaseHandler.get_ticket, List.find?_eq_none] at hnone
      exact hnone x hx (by simp [hpx.1])
    · have htmem : t ∈ db := List.mem_of_find?_eq_some hsome
      have htid : t.ticket_id = tid := by
        have := List.find?_some hsome
        simpa using this
      have hxt : x = t :=
        List.inj_on_of_nodup_map hkeys hx htmem (by rw [hpx.1, htid])
      exact hne (by rw [← hxt, hpx.2])
  constructor
  · unfold BotHandlers.ticket_view_reply
    rcases hbad with hnone | ⟨t, hsome, hne⟩
    · rw [hnone]
    · rw [hsome]
      simp [hne]
  · unfold DatabaseHandler.delete_ticket
    simp [hany]

/-- Witness for `c2_non_owner_indistinguishable`: user 2 probing user
1's ticket gets exactly the not-found reply and a failed delete that
leaves the store intact. -/
theorem c2_witness :
    BotHandlers.ticket_view_reply [⟨"1_100", 1, "2024", []⟩] 2 "1_100" =
      BotHandlers.TICKET_NOT_FOUND_REPLY ∧
    DatabaseHandler.delete_ticket [⟨"1_100", 1, "2024", []⟩] "1_100" 2 =
      (false, [⟨"1_100", 1, "2024", []⟩]) :=
  c2_non_owner_indistinguishable [⟨"1_100", 1, "2024", []⟩] 2 "1_100"
    (by decide) (Or.inr ⟨⟨"1_100", 1, "2024", []⟩, by decide, by decide⟩)

/-! ## Claim C3 -/

/-- Claim C3 evaluated on the code.  The reachable part holds: with an
absent or incomplete session, `create_ticket` returns `None` and
changes nothing (first conjunct).  But the success and failure paths
the claim describes are dead code: on a complete session the
synchronous store insert executes during argument evaluation and the
`await` at `form_handler.py` line 221 then raises `TypeError`, so the
session is NEVER removed and neither the new id nor the failure value
`None` is ever returned.  The second conjunct shows the fresh insert
applied (ticket "1_99" persisted), the session retained with its
answers, and the `TypeError` outcome; the third shows that a clashing
id (the store-failure case of the claim) also ends in `TypeError`
instead of the claimed failure value, with the store unchanged. -/
theorem c3_create_ticket_await_type_error :
    FormHandler.create_ticket ["Ваше имя"]
        [(1, ⟨0, [("Ваше имя", "")], "t"⟩)] [] 1 99 "now" =
      (.ok none, [(1, ⟨0, [("Ваше имя", "")], "t"⟩)], []) ∧
    FormHandler.create_ticket ["Ваше имя"]
        [(1, ⟨1, [("Ваше имя", "Al")], "t"⟩)] [] 1 99 "now" =
      (.typeError, [(1, ⟨1, [("Ваше имя", "Al")], "t"⟩)],
       [⟨"1_99", 1, "now", [("Ваше имя", "Al")]⟩]) ∧
    FormHandler.create_ticket ["Ваше имя"]
        [(1, ⟨1, [("Ваше имя", "Al")], "t"⟩)] [⟨"1_99", 7, "x", []⟩] 1 99 "now" =
      (.typeError, [(1, ⟨1, [("Ваше имя", "Al")], "t"⟩)], [⟨"1_99", 7, "x", []⟩]) := by
  refine ⟨by decide, by decide, by decide⟩

/-! ## Claim C10 -/

/-- Claim C10 evaluated on the code.  When the coroutine body of
`FormHandler.delete_ticket` executes, the synchronous store delete is
applied during argument evaluation and the `await` at
`form_handler.py` line 252 then raises `TypeError` BEFORE the cache
maintenance of lines 255–270, so after the successful store delete the
user's cached ticket index still contains the deleted id "1_5" (first
two conjuncts: the row is gone from the store, the cache entry is
byte-for-byte unchanged and still lists "1_5"); and on a failed
(non-owner) delete no `False` is returned either — the caller gets the
same `TypeError` (third conjunct). -/
theorem c10_delete_ticket_await_type_error :
    FormHandler.delete_ticket [⟨"1_5", 1, "x", []⟩] [(1, ["1_5", "1_6"])] 1 "1_5" =
      (.typeError, [], [(1, ["1_5", "1_6"])]) ∧
    "1_5" ∈ (["1_5", "1_6"] : List String) ∧
    FormHandler.delete_ticket [⟨"1_5", 2, "x", []⟩] [(1, ["1_5"])] 1 "1_5" =
      (.typeError, [⟨"1_5", 2, "x", []⟩], [(1, ["1_5"])]) := by
  refine ⟨by decide, by decide, by decide⟩

/-! ## Claim C1 -/

/-- Claim C1, as stated, is false on the code: `message_handler` checks
the two delete-command texts BEFORE the open-form check, so a user with
an open form session who sends the free text "Удалить заявку" (e.g.
typed by hand, with no structured payload attached) is routed to the
delete-prompt logic, not to `process_answer`. -/
theorem c1_counterexample :
    BotHandlers.message_route
        ⟨[(1, ⟨0, [("Ваше имя", "")], "t"⟩)], [], [], [], []⟩ 1 "Удалить заявку" =
      BotHandlers.MsgRoute.deletePrompt ∧
    BotHandlers.MsgRoute.deletePrompt ≠ BotHandlers.MsgRoute.processAnswer := by
  refine ⟨by decide, by decide⟩

/-- Claim C1 amended: while a user's form session is open, every
free-text message whose stripped text is neither "Удалить заявку" nor
"Подтвердить удаление" is routed to `process_answer`; ticket-selection
logic is never evaluated for such a user (even for purely numeric text
with a cached ticket list); and the two delete handlers that the
excepted texts reach never modify any form session, so the session's
`current_field` and answers are still changed only by `process_answer`. -/
theorem c1_form_priority (st : BotState) (user_id : Nat) (text : String)
    (hopen : (lookupA st.sessions user_id).isSome = true) :
    (pyStrip text ≠ "Удалить заявку" → pyStrip text ≠ "Подтвердить удаление" →
      BotHandlers.message_route st user_id text = BotHandlers.MsgRoute.processAnswer) ∧
    BotHandlers.message_route st user_id text ≠ BotHandlers.MsgRoute.ticketInfo ∧
    (BotHandlers.delete_prompt_step st user_id).1.sessions = st.sessions ∧
    (BotHandlers.confirm_delete_step st user_id).1.sessions = st.sessions := by
  refine ⟨?_, ?_, ?_, ?_⟩
  · intro h1 h2
    unfold BotHandlers.message_route
    rw [if_neg h1, if_neg h2, if_pos hopen]
  · unfold BotHandlers.message_route
    by_cases h1 : pyStrip text = "Удалить заявку"
    · rw [if_pos h1]
      decide
    · rw [if_neg h1]
      by_cases h2 : pyStrip text = "Подтвердить удаление"
      · rw [if_pos h2]
        decide
      · rw [if_neg h2, if_pos hopen]
        decide
  · unfold BotHandlers.delete_prompt_step
    split
    · rfl
    · split
      · rfl
      · split <;> rfl
  · unfold BotHandlers.confirm_delete_step
    split
    · rfl
    · split
      · rfl
      · split <;> rfl

/-- Witness for `c1_form_priority`: a user with an open session and a
cached ticket list sends the purely numeric text "12" — it is still
routed to `process_answer`, not to ticket selection. -/
theorem c1_form_priority_witness :
    BotHandlers.message_route
        ⟨[(1, ⟨0, [("Ваше имя", "")], "t"⟩)], [], [], [(1, ["1_5"])], []⟩ 1 "12" =
      BotHandlers.MsgRoute.processAnswer :=
  (c1_form_priority ⟨[(1, ⟨0, [("Ваше имя", "")], "t"⟩)], [], [], [(1, ["1_5"])], []⟩
    1 "12" (by decide)).1 (by decide) (by decide)

/-! ## Claim C9 -/

/-- Claim C9 evaluated on the code.  The parts that hold: with no
pending-delete entry `confirm_delete_handler` replies "no pending
deletion" and changes nothing; with a stale pending entry (ticket gone
or re-owned) it replies not-found, clears the pending entry and fires no
notification.  The failing part: with a valid pending entry for an
owned, existing ticket, `handlers.py` line 348 calls the async
`FormHandler.delete_ticket` WITHOUT `await`, so no store delete is
executed at all, yet the coroutine object is truthy and the handler
replies "успешно удалена" and fires the admin notification — the third
conjunct shows the success reply and the notification with the store
(and ticket cache) left completely unchanged. -/
theorem c9_confirm_delete_missing_await :
    BotHandlers.confirm_delete_step
        ⟨[], [], [], [], [⟨"1_5", 1, "T", []⟩]⟩ 1 =
      (⟨[], [], [], [], [⟨"1_5", 1, "T", []⟩]⟩,
       "Не найдено заявок, ожидающих удаления. Возможно, время ожидания истекло.",
       false) ∧
    BotHandlers.confirm_delete_step
        ⟨[], [], [(1, "1_9")], [], [⟨"1_5", 1, "T", []⟩]⟩ 1 =
      (⟨[], [], [], [], [⟨"1_5", 1, "T", []⟩]⟩,
       BotHandlers.DELETE_NOT_FOUND_REPLY, false) ∧
    BotHandlers.confirm_delete_step
        ⟨[], [], [(1, "1_5")], [(1, ["1_5"])], [⟨"1_5", 1, "T", []⟩]⟩ 1 =
      (⟨[], [], [], [(1, ["1_5"])], [⟨"1_5", 1, "T", []⟩]⟩,
       "Заявка 1_5 успешно удалена.", true) := by
  refine ⟨by decide, by decide, by decide⟩
